import Mathlib

/-!
# Verification of the hybrid retrieval engine of `chat_api/rag_service.py`

This file gives a shallow embedding, in Lean, of the retrieval core of the
repository: the text normalizer, the intent flags, the keyword scorer with its
per-intent specialized branches, and the score fusion step, as implemented in
`chat_api/rag_service.py` (class `RAGService`, methods `keyword_search` and
`search_documents`).  Scores are modelled with `ℚ` (the Python code uses
floats, but every constant in the scorer is a small decimal and all arithmetic
performed on the modelled paths is exact).  Python's substring test `a in b`
is modelled by `containsStr`, `str.count` by `countOcc`, and the three date
regular expressions by explicit scanners.

The Unicode steps (`unicodedata.normalize('NFD', ·)`, the `Mn`-category
filter, and `str.lower()`) are modelled on the character repertoire the
system operates on (Spanish text): `decompTable` records the NFD canonical
decompositions of the precomposed Latin letters used, `isCombiningMark`
recognises the combining-diacritic block their decompositions produce, and
`lowerTable` records the lower-case mapping.  All other characters decompose
to themselves, which matches NFD on the unaccented characters that occur in
the corpus and queries.
-/

namespace RAGService

/-- Canonical (NFD) decompositions of the precomposed Latin letters in the
system's repertoire: each accented letter maps to its base letter followed by
the combining mark.  Models `unicodedata.normalize('NFD', text)` from
`rag_service.py` lines 450-453. -/
def decompTable : List (Char × List Char) :=
  [('á', ['a', '́']), ('é', ['e', '́']), ('í', ['i', '́']),
   ('ó', ['o', '́']), ('ú', ['u', '́']),
   ('Á', ['A', '́']), ('É', ['E', '́']), ('Í', ['I', '́']),
   ('Ó', ['O', '́']), ('Ú', ['U', '́']),
   ('ñ', ['n', '̃']), ('Ñ', ['N', '̃']),
   ('ü', ['u', '̈']), ('Ü', ['U', '̈']),
   ('à', ['a', '̀']), ('è', ['e', '̀']), ('ì', ['i', '̀']),
   ('ò', ['o', '̀']), ('ù', ['u', '̀']),
   ('À', ['A', '̀']), ('È', ['E', '̀']), ('Ì', ['I', '̀']),
   ('Ò', ['O', '̀']), ('Ù', ['U', '̀']),
   ('ä', ['a', '̈']), ('ë', ['e', '̈']), ('ï', ['i', '̈']),
   ('ö', ['o', '̈']),
   ('Ä', ['A', '̈']), ('Ë', ['E', '̈']), ('Ï', ['I', '̈']),
   ('Ö', ['O', '̈']),
   ('ç', ['c', '̧']), ('Ç', ['C', '̧'])]

/-- NFD decomposition of one character: table entry if present, else itself. -/
def decompChar (c : Char) : List Char :=
  (decompTable.lookup c).getD [c]

/-- The combining-diacritical-marks block U+0300..U+036F; these are the
characters of Unicode category `Mn` produced by `decompTable`.  Models the
`unicodedata.category(c) != 'Mn'` filter. -/
def isCombiningMark (c : Char) : Bool :=
  0x300 ≤ c.toNat && c.toNat ≤ 0x36F

/-- Lower-case mapping (`str.lower()`) for the repertoire: ASCII letters and
the precomposed accented capitals. -/
def lowerTable : List (Char × Char) :=
  [('A', 'a'), ('B', 'b'), ('C', 'c'), ('D', 'd'), ('E', 'e'), ('F', 'f'),
   ('G', 'g'), ('H', 'h'), ('I', 'i'), ('J', 'j'), ('K', 'k'), ('L', 'l'),
   ('M', 'm'), ('N', 'n'), ('O', 'o'), ('P', 'p'), ('Q', 'q'), ('R', 'r'),
   ('S', 's'), ('T', 't'), ('U', 'u'), ('V', 'v'), ('W', 'w'), ('X', 'x'),
   ('Y', 'y'), ('Z', 'z'),
   ('Á', 'á'), ('É', 'é'), ('Í', 'í'), ('Ó', 'ó'), ('Ú', 'ú'),
   ('Ñ', 'ñ'), ('Ü', 'ü'),
   ('À', 'à'), ('È', 'è'), ('Ì', 'ì'), ('Ò', 'ò'), ('Ù', 'ù'),
   ('Ä', 'ä'), ('Ë', 'ë'), ('Ï', 'ï'), ('Ö', 'ö'), ('Ç', 'ç')]

/-- Lower-case one character. -/
def lowerChar (c : Char) : Char :=
  (lowerTable.lookup c).getD c

/-- NFD decomposition of a character list, character by character. -/
def nfdList : List Char → List Char
  | [] => []
  | c :: t => decompChar c ++ nfdList t

/-- The `normalize` helper defined inside `expand_query` and `keyword_search`
(`rag_service.py` lines 450-453): NFD-decompose, drop combining marks
(category `Mn`), lower-case. -/
def normalize (text : String) : String :=
  ⟨((nfdList text.data).filter (fun c => !isCombiningMark c)).map lowerChar⟩

/-- `str.lower()` alone, as used on the raw query in `search_documents`
(`rag_service.py` line 1138): no decomposition, no mark stripping. -/
def lowerStr (s : String) : String :=
  ⟨s.data.map lowerChar⟩

/-- Python's substring test `needle in hay` on character lists: some suffix of
`hay` starts with `needle`. -/
def hasSub : List Char → List Char → Bool
  | [], needle => needle.isEmpty
  | c :: t, needle => needle.isPrefixOf (c :: t) || hasSub t needle

/-- Python's `needle in hay` on strings. -/
def containsStr (hay needle : String) : Bool :=
  hasSub hay.data needle.data

/-- `any(n in hay for n in needles)`. -/
def anyContained (hay : String) (needles : List String) : Bool :=
  needles.any (fun n => containsStr hay n)

/-- `sum(1 for kw in kws if kw in hay)`. -/
def countContained (hay : String) (kws : List String) : Nat :=
  kws.countP (fun kw => containsStr hay kw)

/-- Python's `hay.count(needle)`: number of non-overlapping occurrences,
scanning left to right.  (Only ever called with a non-empty `needle`: the
scorer counts occurrences of whitespace-split words.) -/
def countOcc (needle : List Char) (hay : List Char) : Nat :=
  match hay with
  | [] => 0
  | c :: t =>
    if needle.isEmpty then 0
    else if needle.isPrefixOf (c :: t) then
      countOcc needle (t.drop (needle.length - 1)) + 1
    else countOcc needle t
termination_by hay.length
decreasing_by
  · simp only [List.length_cons, List.length_drop]; omega
  · simp only [List.length_cons]; omega

/-- `query_normalized.split()`: split on whitespace, dropping empty pieces. -/
def queryWords (qn : String) : List String :=
  (qn.split (fun c => c.isWhitespace)).filter (fun w => w ≠ "")

/-- A document of the collection loaded from `dataset_v2.json` (§3 of the
spec).  Optional string attributes model Python truthiness with `""` for
absent/empty, the numeric fee with `0` for absent/falsy, and the keyword list
with `[]` for absent. -/
structure Doc where
  content : String
  tasa_soles : ℚ := 0
  modalidad_pago_relacionada : String := ""
  sub_categoria : String := ""
  fecha_relevante : String := ""
  actividad_cronograma : String := ""
  lugar_pago : String := ""
  keywords : List String := []
  categoria_principal : String := ""
deriving DecidableEq, Repr

/-- The domain synonym table of `keyword_search` (`rag_service.py` lines
459-504). -/
def synonyms : List (String × List String) :=
  [("matricula", ["matricula", "inscripcion", "registro"]),
   ("convalidacion", ["convalidacion", "validacion", "reconocimiento"]),
   ("excepcion", ["excepcion", "especial", "extraordinaria"]),
   ("requisitos", ["requisitos", "documentos", "expediente"]),
   ("cronograma", ["cronograma", "fecha", "fechas", "calendario", "plazo", "cuando", "cuanto"]),
   ("reserva", ["reserva", "suspension", "pausa"]),
   ("reactualizacion", ["reactualizacion", "reactivacion", "renovacion"]),
   ("presentar", ["presentar", "entregar", "donde", "lugar"]),
   ("expediente", ["expediente", "tramite", "solicitud", "documento"]),
   ("criterios", ["criterios", "requisitos", "condiciones", "exigencias"]),
   ("academicos", ["academicos", "academicas", "educativos", "curriculares"]),
   ("creditaje", ["creditaje", "creditos", "credito", "unidades"]),
   ("contenidos", ["contenidos", "contenido", "temas", "silabo", "programa"]),
   ("similitud", ["similitud", "equivalencia", "parecido", "semejanza"]),
   ("institutos", ["institutos", "instituto", "cetpro", "senati", "sencico"]),
   ("restricciones", ["restricciones", "limitaciones", "prohibiciones", "no se puede", "no se permite"]),
   ("pueden", ["pueden", "puede", "se puede", "es posible", "permiten"]),
   ("costo", ["costo", "precio", "pago", "tasa", "tarifa", "cuanto cuesta", "cuanto es", "valor", "monto"]),
   ("modalidad", ["modalidad", "tipo", "categoria", "ordinario", "profesional", "ceprunsa", "traslado"]),
   ("validar", ["validar", "validacion", "confirmar", "confirmacion"]),
   ("obligatorio", ["obligatorio", "obligatoriamente", "debe", "requerido", "necesario"]),
   ("finalizar", ["finalizar", "terminar", "culminar", "concluir", "completar"]),
   ("constancia", ["constancia", "documento", "comprobante", "certificado"]),
   ("imprimir", ["imprimir", "descargar", "obtener"]),
   ("acto", ["acto", "accion", "procedimiento", "proceso", "tramite"]),
   ("formal", ["formal", "oficial", "administrativo"]),
   ("acredita", ["acredita", "certifica", "avala", "valida", "reconoce"]),
   ("condicion", ["condicion", "estado", "situacion", "calidad"]),
   ("definicion", ["que es", "cual es", "define", "definicion", "concepto", "significa"]),
   ("ocurre", ["ocurre", "pasa", "sucede", "acontece", "resulta"]),
   ("dejan", ["dejan", "abandonan", "no se matriculan", "no matricularse", "dejar de"]),
   ("pierden", ["pierden", "perder", "perdida", "perderse"]),
   ("postular", ["postular", "volver a postular", "postulacion", "admision"]),
   ("adicionales", ["adicionales", "extras", "extra", "mas", "de mas"]),
   ("otorga", ["otorga", "da", "concede", "permite", "autoriza"]),
   ("pendiente", ["pendiente", "sin aprobar", "reprobado", "desaprobado"]),
   ("contactar", ["contactar", "comunicarse", "escribir", "enviar mensaje"]),
   ("correo", ["correo", "email", "correo electronico", "direccion electronica"]),
   ("talleres", ["talleres", "taller", "extracurriculares", "extracurricular", "actividades complementarias"]),
   ("inscribirse", ["inscribirse", "inscripcion", "registrarse", "registro", "matricularse"]),
   ("egresar", ["egresar", "culminar", "terminar", "finalizar carrera"]),
   ("paralelo", ["paralelo", "simultaneo", "al mismo tiempo", "juntas", "juntos"]),
   ("faltan", ["faltan", "me faltan", "solo me faltan", "quedan"])]

/-- `expanded_words` (`rag_service.py` lines 506-511): the query's words plus,
for every synonym entry one of whose listed forms appears among the query's
words, all forms of that entry.  The Python value is a `set`; it is modelled
as a duplicate-free list, so sums and membership tests over it agree with the
set. -/
def expanded_words (qn : String) : List String :=
  let qw := queryWords qn
  (qw ++ synonyms.foldr
      (fun (p : String × List String) acc =>
        if qw.any (fun w => p.2.contains w) then p.2 ++ acc else acc)
      []).dedup

/-- `date_question` (`rag_service.py` line 514). -/
def date_question (query : String) : Bool :=
  anyContained (normalize query) ["cuando", "fecha", "fechas", "plazo", "cronograma"]

/-- `place_question` (line 515). -/
def place_question (query : String) : Bool :=
  anyContained (normalize query) ["donde", "lugar", "presentar", "entregar"]

/-- `academic_question` (line 516). -/
def academic_question (query : String) : Bool :=
  anyContained (normalize query)
    ["criterios", "requisitos", "academico", "creditaje", "contenido", "similitud"]

/-- `restriction_question` (lines 518-522): restriction trigger words, minus
queries that mention the exception-enrollment phrase or the bare word
`excepcion`. -/
def restriction_question (query : String) : Bool :=
  anyContained (normalize query)
      ["se pueden", "se puede", "puedo", "permiten", "permite", "instituto",
       "restriccion", "prohibido", "no se"]
    && !containsStr (normalize query) "matricula por excepcion"
    && !containsStr (normalize query) "excepcion"

/-- `cost_question` (line 524). -/
def cost_question (query : String) : Bool :=
  anyContained (normalize query)
    ["cuanto", "cuesta", "costo", "precio", "pago", "tasa", "tarifa", "valor", "monto", "s/"]

/-- `validation_question` (lines 526-530). -/
def validation_question (query : String) : Bool :=
  anyContained (normalize query)
    ["validar", "validacion", "finalizar", "terminar", "culminar",
     "obligatorio", "obligatoriamente", "debe", "despues de registrar",
     "al finalizar", "al terminar", "constancia"]

/-- `definition_question` (lines 532-536). -/
def definition_question (query : String) : Bool :=
  anyContained (normalize query)
    ["que es", "cual es", "que significa", "define", "definicion",
     "concepto", "se considera", "se entiende por",
     "acto formal", "acto voluntario", "acredita la condicion"]

/-- `payment_procedure_question` (lines 538-542). -/
def payment_procedure_question (query : String) : Bool :=
  anyContained (normalize query)
    ["varios recibos", "un solo recibo", "un recibo", "varios pagos",
     "puedo pagar", "como pago", "forma de pago", "procedimiento de pago",
     "en cuotas", "en partes", "fraccionado"]

/-- `amount_question` (lines 544-547). -/
def amount_question (query : String) : Bool :=
  anyContained (normalize query)
    ["cuanto cuesta", "cuanto es", "cual es el costo", "cual es el precio",
     "monto", "valor", "s/", "soles"]

/-- `consequence_question` (lines 549-554). -/
def consequence_question (query : String) : Bool :=
  anyContained (normalize query)
    ["que ocurre", "que pasa", "que sucede",
     "dejan de matricularse", "no se matriculan", "no matricularse",
     "mas de tres", "mas de 3", "despues de tres", "luego de tres",
     "pierden", "perder la condicion", "volver a postular"]

/-- `credits_question` (lines 556-562); the last phrase carries an accent in
the source. -/
def credits_question (query : String) : Bool :=
  anyContained (normalize query)
    ["creditos adicionales", "creditos extra", "creditos de mas",
     "cuantos creditos adicionales", "cuantos creditos extras",
     "cuantos creditos mas", "creditos adicionales me otorga",
     "sin cursos pendientes", "no tengo cursos pendientes",
     "ningun curso pendiente", "sin ningún curso pendiente"]

/-- `contact_question` (lines 564-569). -/
def contact_question (query : String) : Bool :=
  anyContained (normalize query)
    ["que correo", "cual es el correo", "correo electronico",
     "a que correo", "donde contactar", "como contactar",
     "talleres extracurriculares", "talleres", "inscribirme en talleres",
     "oficina de", "upacdr"]

/-- `exception_enrollment_question` (lines 571-581). -/
def exception_enrollment_question (query : String) : Bool :=
  anyContained (normalize query)
    ["matricula por excepcion", "por excepcion", "excepcionalmente",
     "faltan dos asignaturas", "dos asignaturas para egresar",
     "una es prerrequisito", "llevarlas juntas", "llevar en paralelo",
     "llevar las dos"]

/-- `authority_question` (lines 584-596). -/
def authority_question (query : String) : Bool :=
  anyContained (normalize query)
    ["quien establece", "quien programa", "quien define", "quien aprueba",
     "quien determina", "que entidad", "que organo", "consejo universitario",
     "decano", "director", "vicerrectorado"]

/-- `equivalence_question` (lines 599-607). -/
def equivalence_question (query : String) : Bool :=
  anyContained (normalize query)
    ["equivalente", "equivale", "es equivalente a", "abandono es equivalente",
     "condicion de abandono", "conteo de matriculas", "matriculas ejecutadas"]

/-- `lugar_pago_matricula_question` (lines 610-614); computed by
`keyword_search` but never used by it. -/
def lugar_pago_matricula_question (query : String) : Bool :=
  containsStr (normalize query) "matricula" && place_question query
    && anyContained (normalize query) ["pagar", "pago", "derechos", "tasa"]

/-- `lugar_pago_convalidacion_question` (lines 616-620); unused. -/
def lugar_pago_convalidacion_question (query : String) : Bool :=
  containsStr (normalize query) "convalidacion" && place_question query
    && anyContained (normalize query) ["pagar", "pago", "derechos", "tasa"]

/-- `lugar_pago_modificacion_question` (lines 622-626); unused. -/
def lugar_pago_modificacion_question (query : String) : Bool :=
  containsStr (normalize query) "modificacion" && place_question query
    && anyContained (normalize query) ["pagar", "pago", "derechos", "tasa"]

/-- `lugar_presentacion_expediente_question` (lines 628-631); unused. -/
def lugar_presentacion_expediente_question (query : String) : Bool :=
  place_question query
    && anyContained (normalize query)
        ["presentar", "entregar", "expediente", "solicitud", "tramite"]

/-- `authority_keywords` (lines 641-650). -/
def authority_keywords : List String :=
  ["consejo universitario", "establecera", "establece", "calendario academico",
   "programa las fechas", "programara", "articulo 11", "anualmente"]

/-- Authority branch (lines 640-674); `c` is the normalized content. -/
def authorityScore (c : String) : ℚ :=
  let matchCount := countContained c authority_keywords
  let has_council := containsStr c "consejo universitario"
  let has_calendar := containsStr c "calendario academico"
  let has_establish := anyContained c ["establecera", "establece", "programa"]
  if has_council && has_calendar && has_establish then 4000
  else if 3 ≤ matchCount then 3500
  else if 2 ≤ matchCount then 2500 + (matchCount : ℚ) * 200
  else if matchCount = 1 then 1000
  else 20

/-- `equivalence_keywords` (lines 678-687). -/
def equivalence_keywords : List String :=
  ["abandono", "equivalente", "desaprobacion", "conteo de matriculas",
   "matriculas ejecutadas", "calificacion final", "disposicion final", "primera"]

/-- Abandonment-equivalence branch (lines 677-712). -/
def equivalenceScore (c : String) : ℚ :=
  let matchCount := countContained c equivalence_keywords
  let has_abandonment := containsStr c "abandono"
  let has_equivalent := anyContained c ["equivalente", "equivale"]
  let has_disapproval := containsStr c "desaprobacion"
  let has_counting := anyContained c ["conteo de matriculas", "matriculas ejecutadas"]
  if has_abandonment && has_equivalent && (has_disapproval || has_counting) then 4000
  else if 3 ≤ matchCount then 3500
  else if 2 ≤ matchCount then 2500 + (matchCount : ℚ) * 200
  else if matchCount = 1 then 1000
  else 20

/-- `exception_keywords` (lines 717-728). -/
def exception_keywords : List String :=
  ["matricula por excepcion", "excepcion", "dos (2) asignaturas",
   "dos asignaturas", "para egresar", "egresar", "prerrequisito",
   "en paralelo", "llevar las dos", "simultaneamente"]

/-- Exception-enrollment branch (lines 715-755). -/
def exceptionEnrollmentScore (c : String) : ℚ :=
  let matchCount := countContained c exception_keywords
  let has_two_courses :=
    anyContained c ["dos (2) asignaturas", "dos asignaturas", "falte solo dos"]
  let has_prerequisite := containsStr c "prerrequisito"
  let has_parallel := anyContained c ["en paralelo", "llevar las dos", "llevar los dos"]
  if has_two_courses && has_prerequisite && has_parallel then 4000
  else if 3 ≤ matchCount then 3500
  else if 2 ≤ matchCount then 2500 + (matchCount : ℚ) * 200
  else if matchCount = 1 then 1000
  else 20

/-- `contact_keywords` (lines 760-770). -/
def contact_keywords : List String :=
  ["talleres extracurriculares", "taller", "correo", "upacdr",
   "oficina de promocion", "arte, cultura, deporte", "contactar",
   "inscripcion", "@unsa.edu.pe"]

/-- Contact/workshops branch (lines 758-796). -/
def contactScore (c : String) : ℚ :=
  let matchCount := countContained c contact_keywords
  let has_talleres := containsStr c "talleres extracurriculares"
  let has_email := containsStr c "@unsa.edu.pe" || containsStr c "upacdr"
  let has_office := containsStr c "oficina"
  if has_talleres && has_email then 3500
  else if has_talleres || (has_email && has_office) then 3000
  else if 2 ≤ matchCount then 2500 + (matchCount : ℚ) * 200
  else if matchCount = 1 then 1000
  else 20

/-- `credit_keywords` (lines 800-810). -/
def credit_keywords : List String :=
  ["seis (6) creditos adicionales", "seis (06) creditos adicionales",
   "6 creditos adicionales", "06 creditos adicionales", "creditos adicionales",
   "sin cursos pendientes", "ningun curso pendiente", "no tengan ningun curso",
   "sistema considera automaticamente"]

/-- Additional-credits branch (lines 799-834). -/
def creditsScore (c : String) : ℚ :=
  let matchCount := countContained c credit_keywords
  let has_six := anyContained c ["seis (6)", "seis (06)", "6 creditos", "06 creditos"]
  let has_additional := containsStr c "creditos adicionales"
  let has_no_pending :=
    anyContained c ["sin cursos pendientes", "ningun curso pendiente", "no tengan ningun curso"]
  if has_six && has_additional && has_no_pending then 3500
  else if has_six && has_additional then 3000
  else if 2 ≤ matchCount then 2500 + (matchCount : ℚ) * 200
  else if matchCount = 1 then 1000
  else 20

/-- `consequence_keywords` (lines 838-844). -/
def consequence_keywords : List String :=
  ["perderan", "pierden", "perder", "perdida",
   "condicion de estudiante", "condicion",
   "postular nuevamente", "volver a postular", "postulacion",
   "mas de tres", "mas de 3 anos", "tres anos",
   "consecutivos o alternos", "consecutivos", "alternos"]

/-- Consequences branch (lines 837-858). -/
def consequenceScore (c : String) : ℚ :=
  let matchCount := countContained c consequence_keywords
  if 2 ≤ matchCount then 3000 + (matchCount : ℚ) * 300
  else if matchCount = 1 then 1500
  else 20

/-- `definition_keywords` (lines 862-866). -/
def definition_keywords : List String :=
  ["es el acto", "se considera", "se define", "definicion",
   "acto formal", "acto voluntario", "acredita", "condicion de estudiante",
   "articulo 3", "articulo 4", "articulo"]

/-- Definition branch (lines 861-883); `qn` is the normalized query. -/
def definitionScore (qn c : String) : ℚ :=
  if containsStr qn "acto formal" && containsStr qn "acredita" then
    if containsStr c "acto formal" && containsStr c "acredita"
        && containsStr c "condicion de estudiante" then 3000
    else 50
  else
    let matchCount := countContained c definition_keywords
    if 0 < matchCount then 2000 + (matchCount : ℚ) * 200
    else 20

/-- `validation_keywords` (lines 887-891). -/
def validation_keywords : List String :=
  ["validar", "validacion", "validar su matricula",
   "obligatorio", "obligado", "debe",
   "constancia", "imprimir", "finalizar", "finalmente"]

/-- Validation branch (lines 886-902). -/
def validationScore (c : String) : ℚ :=
  let matchCount := countContained c validation_keywords
  if 0 < matchCount then 2000 + (matchCount : ℚ) * 200
  else 10

/-- `payment_keywords` (line 907). -/
def payment_keywords : List String :=
  ["recibo", "recibos", "un solo", "todas las asignaturas", "monto total", "pago"]

/-- Payment-procedure sub-branch of the cost branch (lines 906-917). -/
def paymentProcedureScore (c : String) : ℚ :=
  let keyword_count := countContained c payment_keywords
  if 0 < keyword_count then 2000 + (keyword_count : ℚ) * 100
  else 5

/-- Amount sub-branch of the cost branch (lines 919-983).  A document with a
falsy fee field scores exactly 0; otherwise the base 1000 is raised by +500
for a modality term of the query found in the document's
`modalidad_pago_relacionada` attribute and +800 for a matching provenance,
reset to 10 when the query names a modality the attribute lacks, and finally
multiplied by 0.05 when the query names a provenance the attribute lacks. -/
def costAmountScore (qn : String) (doc : Doc) : ℚ :=
  if doc.tasa_soles = 0 then 0
  else
    let hasOrd := containsStr qn "ordinario"
    let hasProf := containsStr qn "profesional" || containsStr qn "profesionales"
    let hasCep := containsStr qn "ceprunsa"
    let hasTras := containsStr qn "traslado"
    let anyModalidad := hasOrd || hasProf || hasCep || hasTras
    let pOtraEscuela := containsStr qn "otra escuela" || containsStr qn "escuela unsa"
    let pNacionalOtra := containsStr qn "universidad nacional" && containsStr qn "otra"
    let pParticular :=
      containsStr qn "universidad particular" || containsStr qn "universidad privada"
    let anyProcedencia := pOtraEscuela || pNacionalOtra || pParticular
    if doc.modalidad_pago_relacionada = "" then 1000
    else
      let dmn := normalize doc.modalidad_pago_relacionada
      let modalidad_match :=
        (hasOrd && containsStr dmn "ordinario")
          || (hasProf && containsStr dmn "profesionales")
          || (hasCep && containsStr dmn "ceprunsa")
          || (hasTras && containsStr dmn "traslado")
      let procedencia_match :=
        if pParticular then containsStr dmn "universidad particular"
        else if pNacionalOtra then
          containsStr dmn "universidad nacional" && containsStr dmn "otra"
        else if pOtraEscuela then
          containsStr dmn "otra escuela de la unsa" || containsStr dmn "escuela de la unsa"
        else false
      let base : ℚ := 1000 + (if modalidad_match then 500 else 0)
        + (if procedencia_match then 800 else 0)
      let afterModalidad : ℚ := if anyModalidad && !modalidad_match then 10 else base
      if anyProcedencia && !procedencia_match then afterModalidad * (1 / 20)
      else afterModalidad

/-- Generic cost sub-branch (lines 985-993). -/
def costGenericScore (doc : Doc) : ℚ :=
  if doc.tasa_soles ≠ 0 then 1000
  else if anyContained (normalize doc.content)
      ["recibo", "pago", "un solo", "todas las asignaturas"] then 1500
  else 0

/-- Length of the run of characters satisfying `p` at the head of the list. -/
def countLeading (p : Char → Bool) : List Char → Nat
  | [] => 0
  | c :: t => if p c then countLeading p t + 1 else 0

/-- Python's `\w` on the normalized (ASCII-folded, lower-case) content. -/
def isWordChar (c : Char) : Bool :=
  c.isAlphanum || c == '_'

/-- Match of the date pattern `\d{1,2}\s+de\s+\w+` anchored at the head of
`l`.  Because the quantified digit class is immediately followed by `\s+`,
the backtracking search succeeds at a position exactly when the full digit
run there has length 1 or 2, so the scanner is deterministic. -/
def matchDate1 (l : List Char) : Bool :=
  let n := countLeading Char.isDigit l
  if n = 0 || 2 < n then false
  else
    let l1 := l.drop n
    let s1 := countLeading Char.isWhitespace l1
    if s1 = 0 then false
    else
      match l1.drop s1 with
      | 'd' :: 'e' :: l2 =>
        let s2 := countLeading Char.isWhitespace l2
        if s2 = 0 then false
        else decide (0 < countLeading isWordChar (l2.drop s2))
      | _ => false

/-- Match of `del\s+\d{1,2}\s+al\s+\d{1,2}` anchored at the head of `l`
(same determinization; the trailing `\d{1,2}` only needs one digit). -/
def matchDate2 (l : List Char) : Bool :=
  match l with
  | 'd' :: 'e' :: 'l' :: l1 =>
    let s1 := countLeading Char.isWhitespace l1
    if s1 = 0 then false
    else
      let l2 := l1.drop s1
      let n := countLeading Char.isDigit l2
      if n = 0 || 2 < n then false
      else
        let l3 := l2.drop n
        let s2 := countLeading Char.isWhitespace l3
        if s2 = 0 then false
        else
          match l3.drop s2 with
          | 'a' :: 'l' :: l4 =>
            let s3 := countLeading Char.isWhitespace l4
            if s3 = 0 then false
            else decide (0 < countLeading Char.isDigit (l4.drop s3))
          | _ => false
  | _ => false

/-- Match of `\d{1,2}` then `\s*`, a dash or a slash, `\s*`, then `\d{1,2}`, anchored at the head of `l`. -/
def matchDate3 (l : List Char) : Bool :=
  let n := countLeading Char.isDigit l
  if n = 0 || 2 < n then false
  else
    let l1 := l.drop n
    let l2 := l1.drop (countLeading Char.isWhitespace l1)
    match l2 with
    | c :: l3 =>
      if c == '-' || c == '/' then
        let l4 := l3.drop (countLeading Char.isWhitespace l3)
        decide (0 < countLeading Char.isDigit l4)
      else false
    | [] => false

/-- `re.search`: the anchored matcher succeeds at some position. -/
def searchAny (m : List Char → Bool) : List Char → Bool
  | [] => m []
  | c :: t => m (c :: t) || searchAny m t

/-- `date_patterns` loop of lines 1045-1054: +50 if any of the three date
regular expressions matches the content. -/
def dateRegexAny (c : String) : Bool :=
  searchAny matchDate1 c.data || searchAny matchDate2 c.data
    || searchAny matchDate3 c.data

/-- Term-overlap core of the general scorer (lines 997-1000): two points per
occurrence of each expanded word found in the content. -/
def term_overlap (qn c : String) : ℚ :=
  ((expanded_words qn).map
      (fun w => if containsStr c w then (countOcc w.data c.data : ℚ) * 2 else 0)).sum

/-- Verbatim-query bonus (lines 1002-1003). -/
def verbatim_bonus (qn c : String) : ℚ :=
  if containsStr c qn then 30 else 0

/-- `restriction_keywords` (line 1007). -/
def restriction_keywords : List String :=
  ["no se convalidan", "restriccion", "prohibido", "no se permite",
   "instituto", "institutos", "obligatorio"]

/-- `negation_patterns` (lines 1019-1025); the five patterns contain no regex
metacharacters, so `re.search` is a substring test. -/
def negation_patterns : List String :=
  ["no se convalidan", "no se puede", "no se permite", "prohibido", "es obligatorio"]

/-- Restriction bonus of the general scorer (lines 1006-1029); zero whenever
the restriction flag is off. -/
def restrictionPart (query : String) (doc : Doc) : ℚ :=
  if restriction_question query then
    let c := normalize doc.content
    (countContained c restriction_keywords : ℚ) * 60
      + (if doc.sub_categoria ≠ ""
            && (containsStr (normalize doc.sub_categoria) "restriccion"
                || containsStr (normalize doc.sub_categoria) "limitacion")
         then 70 else 0)
      + (countContained c negation_patterns : ℚ) * 50
  else 0

/-- Academic-criteria bonus (lines 1032-1041). -/
def academicPart (query : String) (doc : Doc) : ℚ :=
  if academic_question query then
    let c := normalize doc.content
    (countContained c
        ["creditaje", "creditos", "similitud", "80%", "contenido", "igual", "mayor"] : ℚ) * 40
      + (if doc.sub_categoria ≠ ""
            && containsStr (normalize doc.sub_categoria) "academico"
         then 50 else 0)
  else 0

/-- Date bonus (lines 1044-1060). -/
def datePart (query : String) (doc : Doc) : ℚ :=
  if date_question query then
    (if dateRegexAny (normalize doc.content) then 50 else 0)
      + (if doc.fecha_relevante ≠ "" then 40 else 0)
      + (if doc.actividad_cronograma ≠ "" then 30 else 0)
  else 0

/-- Place bonus (lines 1063-1070). -/
def placePart (query : String) (doc : Doc) : ℚ :=
  if place_question query then
    (countContained (normalize doc.content)
        ["escuela", "oficina", "caja", "lugar", "presentar", "entregar"] : ℚ) * 20
      + (if doc.lugar_pago ≠ "" then 35 else 0)
  else 0

/-- Document-keyword bonus (lines 1073-1076). -/
def keywordsPart (qn : String) (doc : Doc) : ℚ :=
  (doc.keywords.countP (fun kw => containsStr qn (normalize kw)) : ℚ) * 10

/-- Category bonus (lines 1079-1084). -/
def categoriaPart (qn : String) (doc : Doc) : ℚ :=
  if doc.categoria_principal ≠ ""
      && (expanded_words qn).any
          (fun w => containsStr (normalize doc.categoria_principal) w)
  then 15 else 0

/-- The general (non-specialized) scorer of `keyword_search`
(lines 996-1084). -/
def generalScore (query : String) (doc : Doc) : ℚ :=
  let qn := normalize query
  let c := normalize doc.content
  term_overlap qn c + verbatim_bonus qn c
    + restrictionPart query doc + academicPart query doc
    + datePart query doc + placePart query doc
    + keywordsPart qn doc + categoriaPart qn doc

/-- The specialized scoring branches of `keyword_search`, in source order. -/
inductive SpecBranch where
  | authority
  | equivalence
  | exceptionEnrollment
  | contact
  | credits
  | consequence
  | definition
  | validation
  | costPaymentProcedure
  | costAmount
  | costGeneric
deriving DecidableEq, Repr

/-- The branch selected for a query by the `if ... continue` cascade of
`keyword_search` (lines 639-994).  Every branch guard depends only on the
query, and every branch body ends in `continue`, so the per-document cascade
is equivalent to selecting the first active branch once per query. -/
def dispatch (query : String) : Option SpecBranch :=
  if authority_question query then some .authority
  else if equivalence_question query then some .equivalence
  else if exception_enrollment_question query then some .exceptionEnrollment
  else if contact_question query then some .contact
  else if credits_question query then some .credits
  else if consequence_question query then some .consequence
  else if definition_question query then some .definition
  else if validation_question query then some .validation
  else if cost_question query then
    if payment_procedure_question query then some .costPaymentProcedure
    else if amount_question query then some .costAmount
    else some .costGeneric
  else none

/-- Score produced by one specialized branch on one document. -/
def branchScore (b : SpecBranch) (query : String) (doc : Doc) : ℚ :=
  match b with
  | .authority => authorityScore (normalize doc.content)
  | .equivalence => equivalenceScore (normalize doc.content)
  | .exceptionEnrollment => exceptionEnrollmentScore (normalize doc.content)
  | .contact => contactScore (normalize doc.content)
  | .credits => creditsScore (normalize doc.content)
  | .consequence => consequenceScore (normalize doc.content)
  | .definition => definitionScore (normalize query) (normalize doc.content)
  | .validation => validationScore (normalize doc.content)
  | .costPaymentProcedure => paymentProcedureScore (normalize doc.content)
  | .costAmount => costAmountScore (normalize query) doc
  | .costGeneric => costGenericScore doc

/-- Whether any of the nine specialized intents is active for the query. -/
def specializedActive (query : String) : Bool :=
  authority_question query || equivalence_question query
    || exception_enrollment_question query || contact_question query
    || credits_question query || consequence_question query
    || definition_question query || validation_question query
    || cost_question query

/-- `keyword_search`'s score for one document: the selected specialized
branch, or the general scorer when no specialized intent fired. -/
def keywordScore (query : String) (doc : Doc) : ℚ :=
  match dispatch query with
  | some b => branchScore b query doc
  | none => generalScore query doc

/-- `keyword_search(query, documents)` (lines 447-1088): one score per
document position. -/
def keyword_search (query : String) (documents : List Doc) : List ℚ :=
  documents.map (keywordScore query)

/-- The intent flags computed by `search_documents` on the lower-cased raw
query (`rag_service.py` lines 1138-1165). -/
structure IntentFlags where
  is_date : Bool
  is_place : Bool
  is_lugar_pago : Bool
  is_lugar_presentacion : Bool
  is_restriction : Bool
  is_cost : Bool
  is_validation : Bool
  is_definition : Bool
  is_consequence : Bool
  is_credits : Bool
  is_contact : Bool
  is_exception_enrollment : Bool
  is_authority : Bool
  is_equivalence : Bool
deriving DecidableEq, Repr

/-- Intent detection of `search_documents` (lines 1138-1165); note it works
on `query.lower()`, not on the diacritic-stripped normalization. -/
def detectIntents (query : String) : IntentFlags :=
  let ql := lowerStr query
  let is_date := anyContained ql ["cuando", "fecha", "fechas", "plazo", "cronograma"]
  let is_place := anyContained ql ["donde", "lugar", "presentar", "entregar"]
  { is_date := is_date
    is_place := is_place
    is_lugar_pago :=
      is_place && anyContained ql ["pagar", "pago", "caja", "derechos", "tasa"]
    is_lugar_presentacion :=
      is_place && anyContained ql ["presentar", "entregar", "expediente", "tramite"]
    is_restriction :=
      anyContained ql
          ["se pueden", "se puede", "puedo", "permiten", "permite", "instituto",
           "restriccion", "prohibido"]
        && !containsStr ql "matricula por excepcion"
        && !containsStr ql "excepcion"
    is_cost :=
      anyContained ql
        ["cuanto", "cuesta", "costo", "precio", "pago", "tasa", "tarifa",
         "valor", "monto", "s/"]
    is_validation :=
      anyContained ql
        ["validar", "validacion", "finalizar", "terminar", "obligatorio",
         "obligatoriamente", "constancia", "al finalizar"]
    is_definition :=
      anyContained ql
        ["que es", "cual es", "que significa", "define", "definicion",
         "concepto", "acto formal", "acredita la condicion"]
    is_consequence :=
      anyContained ql
        ["que ocurre", "que pasa", "que sucede", "dejan de matricularse",
         "mas de tres", "pierden"]
    is_credits :=
      anyContained ql
        ["creditos adicionales", "creditos extra", "cuantos creditos",
         "sin cursos pendientes", "ningun curso pendiente"]
    is_contact :=
      anyContained ql
        ["que correo", "cual es el correo", "correo electronico",
         "talleres extracurriculares", "talleres", "contactar", "inscribirme"]
    is_exception_enrollment :=
      anyContained ql
        ["matricula por excepcion", "por excepcion", "faltan dos asignaturas",
         "llevarlas juntas", "llevar en paralelo"]
    is_authority :=
      anyContained ql
        ["quien establece", "quien programa", "quien define",
         "consejo universitario", "que entidad", "que organo"]
    is_equivalence :=
      anyContained ql
        ["equivalente", "equivale", "es equivalente a", "abandono es equivalente",
         "conteo de matriculas"] }

/-- The intent-keyed weight table of the fusion step (lines 1180-1203):
`(semantic weight, keyword weight)`. -/
def select_weights (f : IntentFlags) : ℚ × ℚ :=
  if f.is_lugar_pago || f.is_lugar_presentacion then (1/20, 19/20)
  else if f.is_equivalence || f.is_authority || f.is_exception_enrollment then (1/20, 19/20)
  else if f.is_contact || f.is_credits || f.is_consequence || f.is_definition then (1/20, 19/20)
  else if f.is_validation then (1/10, 9/10)
  else if f.is_cost then (1/5, 4/5)
  else if f.is_restriction then (3/10, 7/10)
  else if f.is_date || f.is_place then (1/2, 1/2)
  else (7/10, 3/10)

/-- A scored fusion candidate (the dict of line 1207, keyed by the original
document index). -/
structure Cand where
  idx : Nat
  score : ℚ
  semantic : ℚ
  keyword : ℚ
deriving DecidableEq, Repr

/-- `semantic_scores_dict.get(doc_idx, 0.0)` (line 1176): a document index
absent from the semantic score map counts as semantic score zero. -/
def semLookup (sem : List (Nat × ℚ)) (i : Nat) : ℚ :=
  (sem.lookup i).getD 0

/-- The admission gate of line 1206: semantic score above the low threshold
0.2 or keyword score above the high threshold 50. -/
def admission_gate (s k : ℚ) : Bool :=
  decide (1/5 < s) || decide (50 < k)

/-- `combined_score` (lines 1180-1203). -/
def combine (f : IntentFlags) (s k : ℚ) : ℚ :=
  s * (select_weights f).1 + k * (select_weights f).2

/-- The candidate list built by the fusion loop (lines 1170-1213).  The loop
iterates over the union of the semantic and keyword index sets; the keyword
dict holds every document position `0..n-1`, and by the data-model invariant
(spec §3) every semantic index is a valid document position, so the union is
enumerated as the ascending document positions. -/
def candidates (f : IntentFlags) (sem : List (Nat × ℚ)) (kw : List ℚ) : List Cand :=
  (List.range kw.length).filterMap (fun i =>
    if admission_gate (semLookup sem i) ((kw.get? i).getD 0) then
      some ⟨i, combine f (semLookup sem i) ((kw.get? i).getD 0),
            semLookup sem i, (kw.get? i).getD 0⟩
    else none)

/-- Stable insertion (descending by combined score): walk past strictly
greater scores, so an element inserted from the left lands before every
earlier-inserted element of equal score. -/
def insertCand (a : Cand) : List Cand → List Cand
  | [] => [a]
  | b :: l => if a.score < b.score then b :: insertCand a l else a :: b :: l

/-- `combined_results.sort(key=..., reverse=True)` (line 1216): Python's sort
is stable, and a stable descending sort is uniquely determined by its input,
so this stable insertion sort computes the same list. -/
def sortCands : List Cand → List Cand
  | [] => []
  | a :: l => insertCand a (sortCands l)

/-- The fusion step: admission-gated candidates, stably sorted by combined
score descending, truncated to `top_k` (lines 1170-1238). -/
def fuse (f : IntentFlags) (sem : List (Nat × ℚ)) (kw : List ℚ) (top_k : Nat) :
    List Cand :=
  (sortCands (candidates f sem kw)).take top_k

/-- `search_documents` (lines 1090-1238).  `index_loaded` models the `not
self.index` test, `sem` the semantic scores produced by the external vector
search, and `expanded_query` the string produced by `expand_query` and handed
to `keyword_search` (Python builds it by joining a `set`, whose iteration
order the language does not fix, so it is taken here as an input). -/
def search_documents (index_loaded : Bool) (documents : List Doc)
    (sem : List (Nat × ℚ)) (query expanded_query : String) (top_k : Nat) :
    List Cand :=
  if !index_loaded || documents.isEmpty then []
  else fuse (detectIntents query) sem (keyword_search expanded_query documents) top_k

/-- The query-level guard of each specialized branch, as tested by the
cascade of lines 639-994. -/
def branchFlag (b : SpecBranch) (query : String) : Bool :=
  match b with
  | .authority => authority_question query
  | .equivalence => equivalence_question query
  | .exceptionEnrollment => exception_enrollment_question query
  | .contact => contact_question query
  | .credits => credits_question query
  | .consequence => consequence_question query
  | .definition => definition_question query
  | .validation => validation_question query
  | .costPaymentProcedure => cost_question query && payment_procedure_question query
  | .costAmount =>
    cost_question query && !payment_procedure_question query && amount_question query
  | .costGeneric =>
    cost_question query && !payment_procedure_question query && !amount_question query

/-- Position of each branch in the fixed precedence order
authority > equivalence > exception-enrollment > contact > credits >
consequence > definition > validation > cost-subtype. -/
def branchRank (b : SpecBranch) : Nat :=
  match b with
  | .authority => 0
  | .equivalence => 1
  | .exceptionEnrollment => 2
  | .contact => 3
  | .credits => 4
  | .consequence => 5
  | .definition => 6
  | .validation => 7
  | .costPaymentProcedure => 8
  | .costAmount => 9
  | .costGeneric => 10

/-- Strict ordering of fused candidates: higher combined score first, ties in
ascending original document index. -/
def candLt (a b : Cand) : Prop :=
  b.score < a.score ∨ (a.score = b.score ∧ a.idx < b.idx)

/-- A character is inert when all three normalization stages fix it. -/
def inertP (c : Char) : Prop :=
  decompChar c = [c] ∧ isCombiningMark c = false ∧ lowerChar c = c

instance (c : Char) : Decidable (inertP c) := by
  unfold inertP; infer_instance

end RAGService

namespace RAGService

theorem lookup_some_mem {β : Type} {t : List (Char × β)} {c : Char} {v : β}
    (h : t.lookup c = some v) : (c, v) ∈ t := by
  induction t with
  | nil => simp [List.lookup] at h
  | cons p t ih =>
    rw [List.lookup] at h
    split at h
    · next heq =>
      obtain ⟨k, w⟩ := p
      cases h
      have : c = k := by simpa using heq
      subst this
      exact List.mem_cons_self _ _
    · exact List.mem_cons_of_mem _ (ih h)

theorem table_decomp_inert :
    ∀ p ∈ decompTable, ∀ b ∈ p.2,
      isCombiningMark b = true ∨ inertP (lowerChar b) := by decide

theorem table_lower_inert :
    ∀ q ∈ lowerTable,
      (decompTable.lookup q.1).isSome = true ∨ inertP q.2 := by decide

/-- Every non-mark character produced by decomposition becomes inert once
lower-cased. -/
theorem inert_of_decomp {a b : Char} (hb : b ∈ decompChar a)
    (hmn : isCombiningMark b = false) : inertP (lowerChar b) := by
  unfold decompChar at hb
  cases hl : List.lookup a decompTable with
  | some l =>
    rw [hl] at hb
    simp only [Option.getD_some] at hb
    rcases table_decomp_inert _ (lookup_some_mem hl) _ hb with hmn' | hin
    · rw [hmn] at hmn'; cases hmn'
    · exact hin
  | none =>
    rw [hl] at hb
    simp only [Option.getD_none, List.mem_singleton] at hb
    subst hb
    cases hl2 : List.lookup b lowerTable with
    | some v =>
      have hlc : lowerChar b = v := by unfold lowerChar; rw [hl2]; rfl
      rcases table_lower_inert _ (lookup_some_mem hl2) with hs | hin
      · rw [hl] at hs; cases hs
      · rw [hlc]; exact hin
    | none =>
      have hlc : lowerChar b = b := by unfold lowerChar; rw [hl2]; rfl
      have hdc : decompChar b = [b] := by unfold decompChar; rw [hl]; rfl
      rw [hlc]
      exact ⟨hdc, hmn, hlc⟩

theorem mem_nfdList {b : Char} {L : List Char} :
    b ∈ nfdList L ↔ ∃ a ∈ L, b ∈ decompChar a := by
  induction L with
  | nil => simp [nfdList]
  | cons c t ih => simp [nfdList, ih]

/-- A list of inert characters is fixed by the whole normalization pipeline. -/
theorem norm_fix {L : List Char} (h : ∀ b ∈ L, inertP b) :
    ((nfdList L).filter (fun c => !isCombiningMark c)).map lowerChar = L := by
  induction L with
  | nil => rfl
  | cons a t ih =>
    have ha := h a (List.mem_cons_self a t)
    have ht : ∀ b ∈ t, inertP b := fun b hb => h b (List.mem_cons_of_mem _ hb)
    show (((decompChar a ++ nfdList t).filter _).map lowerChar) = a :: t
    rw [ha.1]
    simp only [List.cons_append, List.nil_append, List.filter_cons, ha.2.1,
      Bool.not_false, if_true, List.map_cons, ha.2.2, ih ht]

theorem normalize_data (x : String) :
    (normalize x).data
      = ((nfdList x.data).filter (fun c => !isCombiningMark c)).map lowerChar := rfl

theorem normalize_inert (x : String) : ∀ b ∈ (normalize x).data, inertP b := by
  intro b hb
  rw [normalize_data] at hb
  obtain ⟨c, hc, rfl⟩ := List.mem_map.mp hb
  have hc' := List.mem_filter.mp hc
  have hmn : isCombiningMark c = false := by
    have := hc'.2; simpa using this
  obtain ⟨a, _, hca⟩ := mem_nfdList.mp hc'.1
  exact inert_of_decomp hca hmn

theorem mem_insertCand {x a : Cand} {l : List Cand} :
    x ∈ insertCand a l ↔ x = a ∨ x ∈ l := by
  induction l with
  | nil => simp [insertCand]
  | cons b t ih =>
    unfold insertCand
    split
    · simp only [List.mem_cons, ih]
      tauto
    · simp only [List.mem_cons]

theorem mem_sortCands {x : Cand} {l : List Cand} : x ∈ sortCands l ↔ x ∈ l := by
  induction l with
  | nil => simp [sortCands]
  | cons a t ih => simp [sortCands, mem_insertCand, ih]

theorem pairwise_insertCand {a : Cand} {l : List Cand}
    (hl : l.Pairwise candLt) (ha : ∀ x ∈ l, a.idx < x.idx) :
    (insertCand a l).Pairwise candLt := by
  induction l with
  | nil => simp [insertCand]
  | cons b t ih =>
    have hb := List.pairwise_cons.mp hl
    unfold insertCand
    split
    · next hs =>
      rw [List.pairwise_cons]
      refine ⟨?_, ih hb.2 (fun x hx => ha x (List.mem_cons_of_mem _ hx))⟩
      intro x hx
      rcases mem_insertCand.mp hx with rfl | hxt
      · exact Or.inl hs
      · exact hb.1 x hxt
    · next hs =>
      have hba : b.score ≤ a.score := not_lt.mp hs
      rw [List.pairwise_cons]
      refine ⟨?_, hl⟩
      intro x hx
      rcases List.mem_cons.mp hx with rfl | hxt
      · rcases lt_or_eq_of_le hba with hlt | heq
        · exact Or.inl hlt
        · exact Or.inr ⟨heq.symm, ha x (List.mem_cons_self _ _)⟩
      · rcases hb.1 x hxt with h1 | h2
        · exact Or.inl (lt_of_lt_of_le h1 hba)
        · rcases lt_or_eq_of_le hba with hlt | heq
          · exact Or.inl (by rw [← h2.1]; exact hlt)
          · exact Or.inr ⟨heq.symm.trans h2.1, ha x (List.mem_cons_of_mem _ hxt)⟩

theorem pairwise_sortCands {l : List Cand}
    (h : l.Pairwise (fun x y => x.idx < y.idx)) :
    (sortCands l).Pairwise candLt := by
  induction l with
  | nil => simp [sortCands]
  | cons a t ih =>
    have hp := List.pairwise_cons.mp h
    exact pairwise_insertCand (ih hp.2)
      (fun x hx => hp.1 x (mem_sortCands.mp hx))

theorem mem_candidates_iff {f : IntentFlags} {sem : List (Nat × ℚ)} {kw : List ℚ}
    {c : Cand} :
    c ∈ candidates f sem kw ↔
      c.idx < kw.length
        ∧ admission_gate (semLookup sem c.idx) ((kw.get? c.idx).getD 0) = true
        ∧ c = ⟨c.idx, combine f (semLookup sem c.idx) ((kw.get? c.idx).getD 0),
               semLookup sem c.idx, (kw.get? c.idx).getD 0⟩ := by
  unfold candidates
  rw [List.mem_filterMap]
  constructor
  · rintro ⟨i, hi, hsome⟩
    rw [List.mem_range] at hi
    by_cases hg : admission_gate (semLookup sem i) ((kw.get? i).getD 0) = true
    · rw [if_pos hg] at hsome
      have hc : c = ⟨i, combine f (semLookup sem i) ((kw.get? i).getD 0),
          semLookup sem i, (kw.get? i).getD 0⟩ := by
        cases hsome
        rfl
      subst hc
      exact ⟨hi, hg, rfl⟩
    · rw [if_neg hg] at hsome
      cases hsome
  · rintro ⟨hlen, hg, hc⟩
    refine ⟨c.idx, List.mem_range.mpr hlen, ?_⟩
    rw [if_pos hg, ← hc]

theorem candidates_pairwise_idx (f : IntentFlags) (sem : List (Nat × ℚ))
    (kw : List ℚ) :
    (candidates f sem kw).Pairwise (fun x y => x.idx < y.idx) := by
  unfold candidates
  rw [List.pairwise_filterMap]
  apply List.Pairwise.imp ?_ (List.pairwise_lt_range kw.length)
  intro i j hij b hb b' hb'
  have hbidx : b.idx = i := by
    by_cases hg : admission_gate (semLookup sem i) ((kw.get? i).getD 0) = true
    · rw [if_pos hg] at hb
      cases hb
      rfl
    · rw [if_neg hg] at hb
      cases hb
  have hbidx' : b'.idx = j := by
    by_cases hg : admission_gate (semLookup sem j) ((kw.get? j).getD 0) = true
    · rw [if_pos hg] at hb'
      cases hb'
      rfl
    · rw [if_neg hg] at hb'
      cases hb'
  rw [hbidx, hbidx']
  exact hij

theorem keywordScore_of_dispatch {query : String} {b : SpecBranch}
    (h : dispatch query = some b) (doc : Doc) :
    keywordScore query doc = branchScore b query doc := by
  unfold keywordScore
  rw [h]

theorem authorityScore_pos (c : String) : 0 < authorityScore c := by
  simp only [authorityScore]
  repeat' split
  all_goals positivity

theorem equivalenceScore_pos (c : String) : 0 < equivalenceScore c := by
  simp only [equivalenceScore]
  repeat' split
  all_goals positivity

theorem exceptionEnrollmentScore_pos (c : String) : 0 < exceptionEnrollmentScore c := by
  simp only [exceptionEnrollmentScore]
  repeat' split
  all_goals positivity

theorem contactScore_pos (c : String) : 0 < contactScore c := by
  simp only [contactScore]
  repeat' split
  all_goals positivity

theorem creditsScore_pos (c : String) : 0 < creditsScore c := by
  simp only [creditsScore]
  repeat' split
  all_goals positivity

theorem consequenceScore_pos (c : String) : 0 < consequenceScore c := by
  simp only [consequenceScore]
  repeat' split
  all_goals positivity

theorem definitionScore_pos (qn c : String) : 0 < definitionScore qn c := by
  simp only [definitionScore]
  repeat' split
  all_goals positivity

theorem validationScore_pos (c : String) : 0 < validationScore c := by
  simp only [validationScore]
  repeat' split
  all_goals positivity

theorem paymentProcedureScore_pos (c : String) : 0 < paymentProcedureScore c := by
  simp only [paymentProcedureScore]
  repeat' split
  all_goals positivity

theorem costAmountScore_pos {qn : String} {doc : Doc} (h : doc.tasa_soles ≠ 0) :
    0 < costAmountScore qn doc := by
  simp only [costAmountScore, if_neg h]
  repeat' split
  all_goals norm_num

theorem costAmountScore_eq_zero_iff (qn : String) (doc : Doc) :
    costAmountScore qn doc = 0 ↔ doc.tasa_soles = 0 := by
  constructor
  · intro h
    by_contra hne
    exact absurd h (ne_of_gt (costAmountScore_pos hne))
  · intro h
    simp [costAmountScore, h]

theorem costGenericScore_eq_zero_iff (doc : Doc) :
    costGenericScore doc = 0 ↔
      doc.tasa_soles = 0
        ∧ anyContained (normalize doc.content)
            ["recibo", "pago", "un solo", "todas las asignaturas"] = false := by
  unfold costGenericScore
  by_cases h1 : doc.tasa_soles ≠ 0
  · rw [if_pos h1]
    norm_num [h1]
  · push_neg at h1
    rw [if_neg (by simp [h1])]
    by_cases h2 : anyContained (normalize doc.content)
        ["recibo", "pago", "un solo", "todas las asignaturas"] = true
    · rw [if_pos h2]
      norm_num [h1, h2]
    · rw [if_neg h2]
      simp only [Bool.not_eq_true] at h2
      simp [h1, h2]

/-- C1: if at least one specialized intent is active for a query, then
`keyword_search` scores every document through exactly one specialized
branch: the active branch of least rank in the fixed precedence order
authority > equivalence > exception-enrollment > contact > credits >
consequence > definition > validation > cost-subtype.  That branch's score
is each document's whole keyword score (the general term-overlap scorer is
never reached), and when the authority intent fires the chosen branch is the
authority branch regardless of which other intents co-fire. -/
theorem keyword_search_specialized_precedence (query : String)
    (documents : List Doc) (h : specializedActive query = true) :
    ∃ b : SpecBranch,
      dispatch query = some b
        ∧ (∀ doc ∈ documents, keywordScore query doc = branchScore b query doc)
        ∧ branchFlag b query = true
        ∧ (∀ b' : SpecBranch, branchFlag b' query = true →
            branchRank b ≤ branchRank b')
        ∧ (authority_question query = true → b = SpecBranch.authority) := by
  cases hA : authority_question query with
  | true =>
    refine ⟨SpecBranch.authority, by simp [dispatch, hA], ?_,
      by simp [branchFlag, hA], ?_, fun _ => rfl⟩
    · intro doc _
      simp [keywordScore, dispatch, hA]
    · intro b' _
      exact Nat.zero_le _
  | false =>
  cases hE : equivalence_question query with
  | true =>
    refine ⟨SpecBranch.equivalence, by simp [dispatch, hA, hE], ?_,
      by simp [branchFlag, hE], ?_, fun hc => absurd hc (by simp [hA])⟩
    · intro doc _
      simp [keywordScore, dispatch, hA, hE]
    · intro b' hb'
      cases b' <;> simp_all [branchFlag, branchRank]
  | false =>
  cases hX : exception_enrollment_question query with
  | true =>
    refine ⟨SpecBranch.exceptionEnrollment, by simp [dispatch, hA, hE, hX], ?_,
      by simp [branchFlag, hX], ?_, fun hc => absurd hc (by simp [hA])⟩
    · intro doc _
      simp [keywordScore, dispatch, hA, hE, hX]
    · intro b' hb'
      cases b' <;> simp_all [branchFlag, branchRank]
  | false =>
  cases hCt : contact_question query with
  | true =>
    refine ⟨SpecBranch.contact, by simp [dispatch, hA, hE, hX, hCt], ?_,
      by simp [branchFlag, hCt], ?_, fun hc => absurd hc (by simp [hA])⟩
    · intro doc _
      simp [keywordScore, dispatch, hA, hE, hX, hCt]
    · intro b' hb'
      cases b' <;> simp_all [branchFlag, branchRank]
  | false =>
  cases hCr : credits_question query with
  | true =>
    refine ⟨SpecBranch.credits, by simp [dispatch, hA, hE, hX, hCt, hCr], ?_,
      by simp [branchFlag, hCr], ?_, fun hc => absurd hc (by simp [hA])⟩
    · intro doc _
      simp [keywordScore, dispatch, hA, hE, hX, hCt, hCr]
    · intro b' hb'
      cases b' <;> simp_all [branchFlag, branchRank]
  | false =>
  cases hCs : consequence_question query with
  | true =>
    refine ⟨SpecBranch.consequence, by simp [dispatch, hA, hE, hX, hCt, hCr, hCs], ?_,
      by simp [branchFlag, hCs], ?_, fun hc => absurd hc (by simp [hA])⟩
    · intro doc _
      simp [keywordScore, dispatch, hA, hE, hX, hCt, hCr, hCs]
    · intro b' hb'
      cases b' <;> simp_all [branchFlag, branchRank]
  | false =>
  cases hD : definition_question query with
  | true =>
    refine ⟨SpecBranch.definition, by simp [dispatch, hA, hE, hX, hCt, hCr, hCs, hD], ?_,
      by simp [branchFlag, hD], ?_, fun hc => absurd hc (by simp [hA])⟩
    · intro doc _
      simp [keywordScore, dispatch, hA, hE, hX, hCt, hCr, hCs, hD]
    · intro b' hb'
      cases b' <;> simp_all [branchFlag, branchRank]
  | false =>
  cases hV : validation_question query with
  | true =>
    refine ⟨SpecBranch.validation,
      by simp [dispatch, hA, hE, hX, hCt, hCr, hCs, hD, hV], ?_,
      by simp [branchFlag, hV], ?_, fun hc => absurd hc (by simp [hA])⟩
    · intro doc _
      simp [keywordScore, dispatch, hA, hE, hX, hCt, hCr, hCs, hD, hV]
    · intro b' hb'
      cases b' <;> simp_all [branchFlag, branchRank]
  | false =>
  cases hC : cost_question query with
  | true =>
    cases hPP : payment_procedure_question query with
    | true =>
      refine ⟨SpecBranch.costPaymentProcedure,
        by simp [dispatch, hA, hE, hX, hCt, hCr, hCs, hD, hV, hC, hPP], ?_,
        by simp [branchFlag, hC, hPP], ?_, fun hc => absurd hc (by simp [hA])⟩
      · intro doc _
        simp [keywordScore, dispatch, hA, hE, hX, hCt, hCr, hCs, hD, hV, hC, hPP]
      · intro b' hb'
        cases b' <;> simp_all [branchFlag, branchRank]
    | false =>
      cases hAm : amount_question query with
      | true =>
        refine ⟨SpecBranch.costAmount,
          by simp [dispatch, hA, hE, hX, hCt, hCr, hCs, hD, hV, hC, hPP, hAm], ?_,
          by simp [branchFlag, hC, hPP, hAm], ?_, fun hc => absurd hc (by simp [hA])⟩
        · intro doc _
          simp [keywordScore, dispatch, hA, hE, hX, hCt, hCr, hCs, hD, hV, hC, hPP, hAm]
        · intro b' hb'
          cases b' <;> simp_all [branchFlag, branchRank]
      | false =>
        refine ⟨SpecBranch.costGeneric,
          by simp [dispatch, hA, hE, hX, hCt, hCr, hCs, hD, hV, hC, hPP, hAm], ?_,
          by simp [branchFlag, hC, hPP, hAm], ?_, fun hc => absurd hc (by simp [hA])⟩
        · intro doc _
          simp [keywordScore, dispatch, hA, hE, hX, hCt, hCr, hCs, hD, hV, hC, hPP, hAm]
        · intro b' hb'
          cases b' <;> simp_all [branchFlag, branchRank]
  | false =>
    exact absurd h
      (by simp [specializedActive, hA, hE, hX, hCt, hCr, hCs, hD, hV, hC])

/-- Witness for C1: a query where the authority and cost intents co-fire;
the authority branch is selected. -/
theorem keyword_search_specialized_precedence_witness :
    specializedActive "quien establece el cronograma y cuanto cuesta" = true
      ∧ ∃ b : SpecBranch,
          dispatch "quien establece el cronograma y cuanto cuesta" = some b
            ∧ (∀ doc ∈ [({ content := "el consejo universitario establece el calendario academico" } : Doc)],
                keywordScore "quien establece el cronograma y cuanto cuesta" doc
                  = branchScore b "quien establece el cronograma y cuanto cuesta" doc)
            ∧ branchFlag b "quien establece el cronograma y cuanto cuesta" = true
            ∧ (∀ b' : SpecBranch,
                branchFlag b' "quien establece el cronograma y cuanto cuesta" = true →
                  branchRank b ≤ branchRank b')
            ∧ (authority_question "quien establece el cronograma y cuanto cuesta" = true →
                b = SpecBranch.authority) :=
  ⟨by decide, keyword_search_specialized_precedence _ _ (by decide)⟩

/-- C2: the spec's cost-amount scenario evaluated on the code.  For the query
"¿Cuánto cuesta convalidar si soy profesional y el curso viene de universidad
particular?" the scorer never reaches the cost-amount sub-branch: the word
`convalidar` contains the validation trigger `validar`, so the query
dispatches to the validation branch (which precedes the cost branch), and a
fee document with modality attribute "Profesional - Universidad Particular"
and no validation keywords in its content scores 10, not at least 1800.
Even evaluating the amount sub-branch itself on this query yields 10, because
the modality term recorded for the query is the plural `profesionales`,
which the singular attribute does not contain, so the modality-mismatch
reset fires despite the provenance bonus.  (The mismatched-provenance
document does score `base × 0.05 = 1/2` there, as the claim says.) -/
theorem cost_amount_scenario_eval :
    validation_question "¿Cuánto cuesta convalidar si soy profesional y el curso viene de universidad particular?" = true
      ∧ dispatch "¿Cuánto cuesta convalidar si soy profesional y el curso viene de universidad particular?"
          = some SpecBranch.validation
      ∧ keywordScore "¿Cuánto cuesta convalidar si soy profesional y el curso viene de universidad particular?"
          { content := "tasa por credito aprobado", tasa_soles := 176,
            modalidad_pago_relacionada := "Profesional - Universidad Particular" } = 10
      ∧ ¬(1800 ≤ keywordScore "¿Cuánto cuesta convalidar si soy profesional y el curso viene de universidad particular?"
          { content := "tasa por credito aprobado", tasa_soles := 176,
            modalidad_pago_relacionada := "Profesional - Universidad Particular" })
      ∧ costAmountScore (normalize "¿Cuánto cuesta convalidar si soy profesional y el curso viene de universidad particular?")
          { content := "tasa por credito aprobado", tasa_soles := 176,
            modalidad_pago_relacionada := "Profesional - Universidad Particular" } = 10
      ∧ costAmountScore (normalize "¿Cuánto cuesta convalidar si soy profesional y el curso viene de universidad particular?")
          { content := "tasa por credito aprobado", tasa_soles := 55,
            modalidad_pago_relacionada := "Ordinario - Universidad Nacional" } = 1/2 := by
  refine ⟨by decide, by decide, by decide, by decide, by decide, ?_⟩
  have hOrd : containsStr (normalize "¿Cuánto cuesta convalidar si soy profesional y el curso viene de universidad particular?") "ordinario" = false := by decide
  have hProf : containsStr (normalize "¿Cuánto cuesta convalidar si soy profesional y el curso viene de universidad particular?") "profesional" = true := by decide
  have hCep : containsStr (normalize "¿Cuánto cuesta convalidar si soy profesional y el curso viene de universidad particular?") "ceprunsa" = false := by decide
  have hTras : containsStr (normalize "¿Cuánto cuesta convalidar si soy profesional y el curso viene de universidad particular?") "traslado" = false := by decide
  have hOtraEsc : containsStr (normalize "¿Cuánto cuesta convalidar si soy profesional y el curso viene de universidad particular?") "otra escuela" = false := by decide
  have hEscUnsa : containsStr (normalize "¿Cuánto cuesta convalidar si soy profesional y el curso viene de universidad particular?") "escuela unsa" = false := by decide
  have hUNac : containsStr (normalize "¿Cuánto cuesta convalidar si soy profesional y el curso viene de universidad particular?") "universidad nacional" = false := by decide
  have hUPart : containsStr (normalize "¿Cuánto cuesta convalidar si soy profesional y el curso viene de universidad particular?") "universidad particular" = true := by decide
  have hdProf : containsStr (normalize "Ordinario - Universidad Nacional") "profesionales" = false := by decide
  have hdPart : containsStr (normalize "Ordinario - Universidad Nacional") "universidad particular" = false := by decide
  have hmod : ¬(("Ordinario - Universidad Nacional" : String) = "") := by decide
  norm_num [costAmountScore, hOrd, hProf, hCep, hTras, hOtraEsc, hEscUnsa,
    hUNac, hUPart, hdProf, hdPart, hmod]

/-- C3 as stated is false on the code: the generic cost sub-branch (not the
cost-amount one) assigns exactly zero to a document with no fee field and no
match against its keyword list, for the cost query "cuanto". -/
theorem specialized_branch_floor_counterexample :
    dispatch "cuanto" = some SpecBranch.costGeneric
      ∧ SpecBranch.costGeneric ≠ SpecBranch.costAmount
      ∧ ({ content := "hola" } : Doc).tasa_soles = 0
      ∧ anyContained (normalize "hola")
          ["recibo", "pago", "un solo", "todas las asignaturas"] = false
      ∧ keywordScore "cuanto" { content := "hola" } = 0 :=
  ⟨by decide, by decide, by decide, by decide, by decide⟩

/-- C3 (amended): every specialized branch except the two fee-sensitive cost
sub-branches gives every document — in particular one with zero keyword
matches — a strictly positive score; the cost-amount sub-branch is zero
exactly when the document has no (truthy) fee field, and the generic cost
sub-branch is zero exactly when the document has no fee field and none of
the payment keywords. -/
theorem specialized_branch_floor (query : String) (doc : Doc) :
    (∀ b : SpecBranch, b ≠ SpecBranch.costAmount → b ≠ SpecBranch.costGeneric →
        0 < branchScore b query doc)
      ∧ (branchScore SpecBranch.costAmount query doc = 0 ↔ doc.tasa_soles = 0)
      ∧ (branchScore SpecBranch.costGeneric query doc = 0 ↔
          doc.tasa_soles = 0
            ∧ anyContained (normalize doc.content)
                ["recibo", "pago", "un solo", "todas las asignaturas"] = false) := by
  refine ⟨?_, costAmountScore_eq_zero_iff _ _, costGenericScore_eq_zero_iff _⟩
  intro b h1 h2
  cases b
  · exact authorityScore_pos _
  · exact equivalenceScore_pos _
  · exact exceptionEnrollmentScore_pos _
  · exact contactScore_pos _
  · exact creditsScore_pos _
  · exact consequenceScore_pos _
  · exact definitionScore_pos _ _
  · exact validationScore_pos _
  · exact paymentProcedureScore_pos _
  · exact absurd rfl h1
  · exact absurd rfl h2

/-- Witness for C3 (amended): the authority branch gives a document with no
authority keyword a positive score. -/
theorem specialized_branch_floor_witness :
    SpecBranch.authority ≠ SpecBranch.costAmount
      ∧ (0 : ℚ) < branchScore SpecBranch.authority "quien aprueba" { content := "hola" } :=
  ⟨by decide,
    (specialized_branch_floor "quien aprueba" { content := "hola" }).1
      SpecBranch.authority (by decide) (by decide)⟩

/-- C4: a query whose normalized form contains the explicit
exception-enrollment phrase "matricula por excepcion" never activates the
restriction intent (even if restriction triggers such as "puedo" are
present), the exception-enrollment intent does fire, and — unless the
higher-precedence authority or equivalence intent also fires — every
document is scored by the exception-enrollment branch, so the restriction
bonus path cannot run. -/
theorem exception_phrase_overrides_restriction (query : String)
    (h : containsStr (normalize query) "matricula por excepcion" = true) :
    restriction_question query = false
      ∧ exception_enrollment_question query = true
      ∧ (authority_question query = false → equivalence_question query = false →
          dispatch query = some SpecBranch.exceptionEnrollment
            ∧ ∀ doc : Doc, keywordScore query doc
                = exceptionEnrollmentScore (normalize doc.content)) := by
  have hx : exception_enrollment_question query = true := by
    simp [exception_enrollment_question, anyContained, h]
  refine ⟨by simp [restriction_question, h], hx, ?_⟩
  intro hA hE
  have hd : dispatch query = some SpecBranch.exceptionEnrollment := by
    simp [dispatch, hA, hE, hx]
  exact ⟨hd, fun doc => keywordScore_of_dispatch hd doc⟩

/-- Witness for C4: the spec's exception-enrollment query, which also
contains the restriction trigger "puedo". -/
theorem exception_phrase_overrides_restriction_witness :
    containsStr (normalize "¿Puedo hacer matrícula por excepción si me faltan dos asignaturas?")
        "matricula por excepcion" = true
      ∧ restriction_question "¿Puedo hacer matrícula por excepción si me faltan dos asignaturas?" = false
      ∧ exception_enrollment_question "¿Puedo hacer matrícula por excepción si me faltan dos asignaturas?" = true
      ∧ dispatch "¿Puedo hacer matrícula por excepción si me faltan dos asignaturas?"
          = some SpecBranch.exceptionEnrollment :=
  ⟨by decide,
    (exception_phrase_overrides_restriction _ (by decide)).1,
    (exception_phrase_overrides_restriction _ (by decide)).2.1,
    ((exception_phrase_overrides_restriction _ (by decide)).2.2
      (by decide) (by decide)).1⟩

/-- C5: a document position enters the fusion candidate set exactly when its
semantic score exceeds the low threshold 0.2 or its keyword score exceeds
the high threshold 50; a position missing from the semantic map counts as
semantic score 0, and a position with keyword score above 50 and semantic
score exactly 0 is admitted. -/
theorem fusion_admission_gate (f : IntentFlags) (sem : List (Nat × ℚ))
    (kw : List ℚ) (i : Nat) (h : i < kw.length) :
    ((∃ c ∈ candidates f sem kw, c.idx = i) ↔
        (1/5 < semLookup sem i ∨ 50 < (kw.get? i).getD 0))
      ∧ (sem.lookup i = none → semLookup sem i = 0)
      ∧ (semLookup sem i = 0 → 50 < (kw.get? i).getD 0 →
          ∃ c ∈ candidates f sem kw, c.idx = i ∧ c.semantic = 0) := by
  have hgate : admission_gate (semLookup sem i) ((kw.get? i).getD 0) = true ↔
      (1/5 < semLookup sem i ∨ 50 < (kw.get? i).getD 0) := by
    simp [admission_gate]
  refine ⟨⟨?_, ?_⟩, ?_, ?_⟩
  · rintro ⟨c, hc, hci⟩
    obtain ⟨_, hg, _⟩ := mem_candidates_iff.mp hc
    rw [hci] at hg
    exact hgate.mp hg
  · intro hor
    refine ⟨⟨i, combine f (semLookup sem i) ((kw.get? i).getD 0),
        semLookup sem i, (kw.get? i).getD 0⟩, ?_, rfl⟩
    exact mem_candidates_iff.mpr ⟨h, hgate.mpr hor, rfl⟩
  · intro h0
    simp [semLookup, h0]
  · intro hs0 hk
    refine ⟨⟨i, combine f (semLookup sem i) ((kw.get? i).getD 0),
        semLookup sem i, (kw.get? i).getD 0⟩, ?_, rfl, hs0⟩
    exact mem_candidates_iff.mpr ⟨h, hgate.mpr (Or.inr hk), rfl⟩

/-- Witness for C5: one document, keyword score 60, empty semantic map. -/
theorem fusion_admission_gate_witness :
    (0 : Nat) < [(60 : ℚ)].length
      ∧ ((∃ c ∈ candidates (detectIntents "hola") [] [(60 : ℚ)], c.idx = 0) ↔
          (1/5 < semLookup [] 0 ∨ 50 < (([(60 : ℚ)].get? 0).getD 0)))
      ∧ (List.lookup 0 ([] : List (Nat × ℚ)) = none → semLookup [] 0 = 0)
      ∧ (semLookup [] 0 = 0 → 50 < (([(60 : ℚ)].get? 0).getD 0) →
          ∃ c ∈ candidates (detectIntents "hola") [] [(60 : ℚ)],
            c.idx = 0 ∧ c.semantic = 0) :=
  ⟨by decide, fusion_admission_gate _ _ _ _ (by decide)⟩

/-- C6: fusion output (for any weight flags and score inputs) is sorted by
combined score descending, equal combined scores appear in ascending
original document-index order, and rerunning fusion on the same inputs
yields the identical list. -/
theorem fusion_sort_stable (f : IntentFlags) (sem : List (Nat × ℚ))
    (kw : List ℚ) (top_k : Nat) :
    (fuse f sem kw top_k).Pairwise
        (fun a b => b.score ≤ a.score ∧ (a.score = b.score → a.idx < b.idx))
      ∧ fuse f sem kw top_k = fuse f sem kw top_k := by
  refine ⟨?_, rfl⟩
  have h1 := pairwise_sortCands (candidates_pairwise_idx f sem kw)
  have h2 : (sortCands (candidates f sem kw)).Pairwise
      (fun a b => b.score ≤ a.score ∧ (a.score = b.score → a.idx < b.idx)) := by
    refine h1.imp ?_
    intro a b hab
    rcases hab with hlt | ⟨heq, hidx⟩
    · refine ⟨le_of_lt hlt, fun he => ?_⟩
      rw [he] at hlt
      exact absurd hlt (lt_irrefl _)
    · exact ⟨le_of_eq heq.symm, fun _ => hidx⟩
  exact List.Pairwise.sublist (List.take_sublist _ _) h2

/-- C7: the fusion weight pair is a pure function of the detected intent
flags: two queries with identical intent detections select identical
(semantic, keyword) weight pairs. -/
theorem fusion_weights_pure (q1 q2 : String)
    (h : detectIntents q1 = detectIntents q2) :
    select_weights (detectIntents q1) = select_weights (detectIntents q2) := by
  rw [h]

/-- Witness for C7: two different queries with the same (empty) intent set. -/
theorem fusion_weights_pure_witness :
    detectIntents "hola" = detectIntents "buenos dias"
      ∧ select_weights (detectIntents "hola")
          = select_weights (detectIntents "buenos dias") :=
  ⟨by decide, fusion_weights_pure _ _ (by decide)⟩

/-- C8: the text normalizer is idempotent, and it identifies the accented
and unaccented spellings: normalize "Inscripción" = normalize "inscripcion". -/
theorem normalize_idempotent_diacritic :
    (∀ x : String, normalize (normalize x) = normalize x)
      ∧ normalize "Inscripción" = normalize "inscripcion" := by
  constructor
  · intro x
    exact congrArg String.mk (norm_fix (normalize_inert x))
  · decide

/-- C9: with an unavailable index or an empty document collection the
retrieval search returns the empty ranked list (it is a total function, so
no error is raised). -/
theorem search_documents_empty_safe (index_loaded : Bool) (documents : List Doc)
    (sem : List (Nat × ℚ)) (query expanded_query : String) (top_k : Nat)
    (h : index_loaded = false ∨ documents = []) :
    search_documents index_loaded documents sem query expanded_query top_k = [] := by
  rcases h with h | h
  · simp [search_documents, h]
  · simp [search_documents, h]

/-- Witness for C9: unloaded index, empty collection. -/
theorem search_documents_empty_safe_witness :
    ((false = false) ∨ (([] : List Doc) = []))
      ∧ search_documents false [] [] "hola" "hola" 5 = [] :=
  ⟨Or.inl rfl, search_documents_empty_safe _ _ _ _ _ _ (Or.inl rfl)⟩

/-- C10: the restriction intent is suppressed by the bare substring
"excepcion": any query whose normalized form contains it — with or without
any enrollment context — has the restriction flag off, so the restriction
bonus of the general scorer contributes zero for every document. -/
theorem restriction_suppressed_by_excepcion (query : String)
    (h : containsStr (normalize query) "excepcion" = true) :
    restriction_question query = false
      ∧ ∀ doc : Doc, restrictionPart query doc = 0 := by
  have hr : restriction_question query = false := by
    simp [restriction_question, h]
  exact ⟨hr, fun doc => by simp [restrictionPart, hr]⟩

/-- Witness for C10: a pure prohibition question mentioning "excepcion" with
no enrollment context. -/
theorem restriction_suppressed_by_excepcion_witness :
    containsStr (normalize "¿que esta prohibido, sin excepcion?") "excepcion" = true
      ∧ restriction_question "¿que esta prohibido, sin excepcion?" = false
      ∧ restrictionPart "¿que esta prohibido, sin excepcion?"
          { content := "no se permite" } = 0 :=
  ⟨by decide,
    (restriction_suppressed_by_excepcion _ (by decide)).1,
    (restriction_suppressed_by_excepcion _ (by decide)).2
      { content := "no se permite" }⟩

end RAGService
